import Mathlib

/-!
Verification development for the PSD Procedural Logic Engine store
(`src/store/ProceduralContext.tsx`, `src/components/KnowledgeInspectorNode.tsx`).

The TypeScript source is shallowly embedded: artifact payloads become Lean
structures whose optional JavaScript fields are `Option`s, JavaScript
truthiness tests (`x && y`, `x || y`, `x ?? y`) become explicit boolean
helpers, and the registry records become association lists keyed by strings.
-/

/-! ## JavaScript truthiness helpers

In the source every guard is a JavaScript truthiness test.  For strings the
empty string is falsy, for numbers `0` is falsy, for objects presence is
truthiness, for booleans `undefined` is falsy.  The `jsOr*` helpers model the
JavaScript `||` operator at each of the types the store uses, and `jsqq`
models `??` (nullish coalescing) on optional booleans. -/

def jsTruthyStr : Option String → Bool
  | none => false
  | some s => s != ""

def jsTruthyNat : Option Nat → Bool
  | none => false
  | some n => n != 0

def jsTruthyBool : Option Bool → Bool
  | none => false
  | some b => b

def jsOrStr (a b : Option String) : Option String :=
  if jsTruthyStr a then a else b

def jsOrNat (a b : Option Nat) : Option Nat :=
  if jsTruthyNat a then a else b

/-- JavaScript `a ?? b` on optional booleans: takes `a` when it is defined
(even when it is `false`), otherwise `b`. -/
def jsqq (a b : Option Bool) : Option Bool :=
  match a with
  | some x => some x
  | none => b

/-- JavaScript `q || 1` on an optional rational (`individualScale || 1`):
`undefined` and `0` are falsy and fall through to `1`. -/
def jsOrOne (a : Option Rat) : Rat :=
  match a with
  | none => 1
  | some q => if q = 0 then 1 else q

/-- JavaScript `q || 0` on an optional rational (`rotation || 0`). -/
def jsOrZero (a : Option Rat) : Rat :=
  match a with
  | none => 0
  | some q => q

def charListHasStart : List Char → List Char → Bool
  | _, [] => true
  | [], _ :: _ => false
  | c :: cs, d :: ds => c == d && charListHasStart cs ds

/-- JavaScript `s.startsWith(p)`, computed on the character lists of the two
strings (behaviourally identical to `String.startsWith`, but written by
structural recursion so that concrete instances evaluate). -/
def jsStartsWith (s p : String) : Bool :=
  charListHasStart s.data p.data

/-! ## Data model

`TransformedPayload` is the artifact shape from `types.ts` as consumed by the
store: exactly the fields that `reconcileTerminalState`, the registry write
paths and `applyOverridesToPayload` read or write.  Fields the store never
consults (layer names, visibility, opacity, prompt text, ...) are omitted
from the embedding.  External binary objects (`metrics`) are kept as an
uninterpreted geometry record: the reconciler only tests their presence
(JavaScript object truthiness), never their contents. -/

inductive PStatus where
  | idle
  | loading
  | success
  | error
deriving DecidableEq, Repr

inductive LayerType where
  | pixel
  | group
  | generative
deriving DecidableEq, Repr

structure LayerCoords where
  x : Rat
  y : Rat
  w : Rat
  h : Rat
deriving DecidableEq, Repr

structure LayerTransform where
  scaleX : Rat
  scaleY : Rat
  rotation : Option Rat
  offsetX : Rat
  offsetY : Rat
deriving DecidableEq, Repr

/-- Opaque geometry record (`metrics`); the store only tests its presence. -/
structure GeomMetrics where
  w : Rat
  h : Rat
deriving DecidableEq, Repr

def jsTruthyMetrics : Option GeomMetrics → Bool
  | none => false
  | some _ => true

def jsOrMetrics (a b : Option GeomMetrics) : Option GeomMetrics :=
  if jsTruthyMetrics a then a else b

/-- A node of the artifact's layer tree (`TransformedLayer` in `types.ts`):
an id, a type tag, coordinates, a transform record and exclusively owned
children. -/
inductive TransformedLayer where
  | mk (id : String) (type : LayerType) (coords : LayerCoords)
      (transform : LayerTransform) (children : List TransformedLayer)

mutual

def TransformedLayer.decEq : (a b : TransformedLayer) → Decidable (a = b)
  | .mk i1 t1 c1 tr1 ch1, .mk i2 t2 c2 tr2 ch2 =>
    if h : i1 = i2 ∧ t1 = t2 ∧ c1 = c2 ∧ tr1 = tr2 then
      match TransformedLayer.decEqList ch1 ch2 with
      | isTrue hc => isTrue (by rw [h.1, h.2.1, h.2.2.1, h.2.2.2, hc])
      | isFalse hc => isFalse (by intro he; cases he; exact hc rfl)
    else isFalse (by intro he; cases he; exact h ⟨rfl, rfl, rfl, rfl⟩)

def TransformedLayer.decEqList : (as bs : List TransformedLayer) → Decidable (as = bs)
  | [], [] => isTrue rfl
  | [], _ :: _ => isFalse (by intro h; cases h)
  | _ :: _, [] => isFalse (by intro h; cases h)
  | a :: as, b :: bs =>
    match TransformedLayer.decEq a b, TransformedLayer.decEqList as bs with
    | isTrue h1, isTrue h2 => isTrue (by rw [h1, h2])
    | isFalse h1, _ => isFalse (by intro h; cases h; exact h1 rfl)
    | _, isFalse h2 => isFalse (by intro h; cases h; exact h2 rfl)

end

instance : DecidableEq TransformedLayer := TransformedLayer.decEq

def TransformedLayer.id : TransformedLayer → String
  | .mk i _ _ _ _ => i

def TransformedLayer.type : TransformedLayer → LayerType
  | .mk _ t _ _ _ => t

def TransformedLayer.coords : TransformedLayer → LayerCoords
  | .mk _ _ c _ _ => c

def TransformedLayer.transform : TransformedLayer → LayerTransform
  | .mk _ _ _ tr _ => tr

def TransformedLayer.children : TransformedLayer → List TransformedLayer
  | .mk _ _ _ _ ch => ch

/-- The shared artifact (`TransformedPayload` in `types.ts`), restricted to
the fields inspected or written by the store and the override merge. -/
structure TransformedPayload where
  generationId : Option Nat
  status : Option PStatus
  isSynthesizing : Option Bool
  isConfirmed : Option Bool
  isTransient : Option Bool
  generationAllowed : Option Bool
  isMandatory : Option Bool
  directives : Option (List String)
  requiresGeneration : Option Bool
  previewUrl : Option String
  sourceReference : Option String
  targetContainer : Option String
  sourceContainer : Option String
  metrics : Option GeomMetrics
  layers : List TransformedLayer
  isPolished : Option Bool
deriving DecidableEq

/-- A payload with every optional field absent and no layers; the base used
to build the concrete artifacts of the scenario theorems. -/
def blankPayload : TransformedPayload where
  generationId := none
  status := none
  isSynthesizing := none
  isConfirmed := none
  isTransient := none
  generationAllowed := none
  isMandatory := none
  directives := none
  requiresGeneration := none
  previewUrl := none
  sourceReference := none
  targetContainer := none
  sourceContainer := none
  metrics := none
  layers := []
  isPolished := none

/-! ## The Reconciler

`reconcileTerminalState` from `src/store/ProceduralContext.tsx`, lines
55-170, translated branch for branch.  `currentPayload` is optional (the
slot may be empty); every `currentPayload?.field` access becomes
`Option.bind`.  In the stale-guard branch the source returns
`currentPayload`, which the guard proves is present; the embedding writes
`(currentPayload.getD incomingPayload)` whose default is never used there. -/

def reconcileTerminalState (incomingPayload : TransformedPayload)
    (currentPayload : Option TransformedPayload) : TransformedPayload :=
  -- 0. GENERATIVE LOGIC GATE: HARD STOP
  if incomingPayload.generationAllowed = some false then
    { incomingPayload with
      previewUrl := none
      isConfirmed := some false
      isTransient := some false
      isSynthesizing := some false
      requiresGeneration := some false
      metrics := incomingPayload.metrics
      layers := incomingPayload.layers.filter fun l =>
        l.type != LayerType.generative ||
          (l.id != "" && !(jsStartsWith l.id "gen-layer-")) }
  else
  -- PHASE 4B: MANDATORY AUTO-CONFIRMATION
  if (jsTruthyBool incomingPayload.isMandatory ||
        (incomingPayload.directives.getD []).contains "MANDATORY_GEN_FILL") &&
      jsTruthyBool incomingPayload.requiresGeneration then
    { incomingPayload with
      status := some PStatus.success
      isConfirmed := some true
      isTransient := some false
      isSynthesizing := incomingPayload.isSynthesizing
      previewUrl := jsOrStr incomingPayload.previewUrl
        (currentPayload.bind fun c => c.previewUrl)
      sourceReference := jsOrStr incomingPayload.sourceReference
        (currentPayload.bind fun c => c.sourceReference)
      generationId := jsOrNat incomingPayload.generationId
        (currentPayload.bind fun c => c.generationId) }
  else
  -- 1. STALE GUARD
  if jsTruthyNat (currentPayload.bind fun c => c.generationId) &&
      jsTruthyNat incomingPayload.generationId &&
      decide ((incomingPayload.generationId.getD 0) <
        ((currentPayload.bind fun c => c.generationId).getD 0)) then
    currentPayload.getD incomingPayload
  else
  -- 2. SANITATION (Geometric Reset)
  if incomingPayload.status = some PStatus.idle then
    { incomingPayload with
      previewUrl := none
      isConfirmed := some false
      isTransient := some false
      isSynthesizing := some false }
  else
  -- 3. FLUSH PHASE (Start Synthesis)
  if jsTruthyBool incomingPayload.isSynthesizing then
    { currentPayload.getD incomingPayload with
      isSynthesizing := some true
      previewUrl := currentPayload.bind fun c => c.previewUrl
      sourceReference := jsOrStr incomingPayload.sourceReference
        (currentPayload.bind fun c => c.sourceReference)
      targetContainer := jsOrStr incomingPayload.targetContainer
        (jsOrStr (currentPayload.bind fun c => c.targetContainer) (some ""))
      metrics := jsOrMetrics incomingPayload.metrics
        (currentPayload.bind fun c => c.metrics)
      generationId := currentPayload.bind fun c => c.generationId
      generationAllowed := some true }
  else
  -- 4. REFINEMENT PERSISTENCE (State Guard)
  let isConfirmedV : Bool :=
    if jsTruthyBool incomingPayload.isTransient then false
    else
      (jsqq incomingPayload.isConfirmed
        (jsqq (currentPayload.bind fun c => c.isConfirmed) (some false))).getD
        false
  -- 5. GEOMETRIC PRESERVATION
  if !jsTruthyNat incomingPayload.generationId &&
      jsTruthyNat (currentPayload.bind fun c => c.generationId) then
    { incomingPayload with
      previewUrl := currentPayload.bind fun c => c.previewUrl
      generationId := currentPayload.bind fun c => c.generationId
      isSynthesizing := currentPayload.bind fun c => c.isSynthesizing
      isConfirmed := currentPayload.bind fun c => c.isConfirmed
      isTransient := currentPayload.bind fun c => c.isTransient
      sourceReference := jsOrStr (currentPayload.bind fun c => c.sourceReference)
        incomingPayload.sourceReference
      generationAllowed := some true }
  else
  -- 6. FINAL CONSTRUCTION
    { incomingPayload with
      isConfirmed := some isConfirmedV
      sourceReference := jsOrStr incomingPayload.sourceReference
        (currentPayload.bind fun c => c.sourceReference)
      generationId := jsOrNat incomingPayload.generationId
        (currentPayload.bind fun c => c.generationId)
      generationAllowed := some true }

/-! ## Registries

Each JavaScript record (`Record<string, T>`) is embedded as an association
list with unique-by-construction keys: `storeSet` replaces in place (the
spread `{...prev, [k]: v}` keeps an existing key's position) or appends,
`storeErase` models the destructuring removal
`const { [k]: _, ...rest } = prev`, and `storeGet` is property lookup. -/

def storeGet {α : Type} (m : List (String × α)) (k : String) : Option α :=
  (m.find? fun kv => kv.1 == k).map fun kv => kv.2

def storeSet {α : Type} (m : List (String × α)) (k : String) (v : α) :
    List (String × α) :=
  match m with
  | [] => [(k, v)]
  | (k', v') :: rest =>
    if k' == k then (k, v) :: rest else (k', v') :: storeSet rest k v

def storeErase {α : Type} (m : List (String × α)) (k : String) :
    List (String × α) :=
  m.filter fun kv => kv.1 != k

/-- A two-level registry: producer id → port id → value. -/
abbrev Reg2 (α : Type) : Type := List (String × List (String × α))

/-- Lookup of the artifact in the slot `(nodeId, handleId)`. -/
def slotGet {α : Type} (m : Reg2 α) (nodeId handleId : String) : Option α :=
  storeGet ((storeGet m nodeId).getD []) handleId

/-! ## Store write operations

Each operation is the body of the corresponding `useCallback` updater in
`src/store/ProceduralContext.tsx`, as a pure function from the previous
registry to the next.  The `JSON.stringify` deep-equality suppression
becomes structural equality of the embedded payloads. -/

/-- `registerPayload` (ProceduralContext.tsx lines 246-277). -/
def registerPayload (nodeId handleId : String) (payload : TransformedPayload)
    (masterOverride : Option Bool) (prev : Reg2 TransformedPayload) :
    Reg2 TransformedPayload :=
  let nodeRecord := (storeGet prev nodeId).getD []
  let currentPayload := storeGet nodeRecord handleId
  -- Phase 4A: Cascaded Generation Blocking (Master Override)
  let effectivePayload :=
    if masterOverride = some false then
      { payload with generationAllowed := some false }
    else payload
  let reconciledPayload := reconcileTerminalState effectivePayload currentPayload
  match currentPayload with
  | some cur =>
    if cur = reconciledPayload then prev
    else storeSet prev nodeId (storeSet nodeRecord handleId reconciledPayload)
  | none => storeSet prev nodeId (storeSet nodeRecord handleId reconciledPayload)

/-- `registerReviewerPayload` (lines 279-303): forces `isPolished` on the
incoming payload, then reconciles into the reviewer registry. -/
def registerReviewerPayload (nodeId handleId : String)
    (payload : TransformedPayload) (prev : Reg2 TransformedPayload) :
    Reg2 TransformedPayload :=
  let nodeRecord := (storeGet prev nodeId).getD []
  let currentPayload := storeGet nodeRecord handleId
  -- Enforce Polished Flag for CARO output
  let effectivePayload := { payload with isPolished := some true }
  let reconciledPayload := reconcileTerminalState effectivePayload currentPayload
  match currentPayload with
  | some cur =>
    if cur = reconciledPayload then prev
    else storeSet prev nodeId (storeSet nodeRecord handleId reconciledPayload)
  | none => storeSet prev nodeId (storeSet nodeRecord handleId reconciledPayload)

/-- The reviewer-registry half of `registerPreviewPayload` (lines 319-348):
identical to the reviewer write (`renderUrl` is deliberately NOT copied into
`previewUrl`), with `isPolished` enforced. -/
def registerPreviewPayloadReviewer (nodeId handleId : String)
    (payload : TransformedPayload) (prev : Reg2 TransformedPayload) :
    Reg2 TransformedPayload :=
  let nodeRecord := (storeGet prev nodeId).getD []
  let currentPayload := storeGet nodeRecord handleId
  let effectivePayload := { payload with isPolished := some true }
  let reconciledPayload := reconcileTerminalState effectivePayload currentPayload
  match currentPayload with
  | some cur =>
    if cur = reconciledPayload then prev
    else storeSet prev nodeId (storeSet nodeRecord handleId reconciledPayload)
  | none => storeSet prev nodeId (storeSet nodeRecord handleId reconciledPayload)

/-- The preview-registry half of `registerPreviewPayload` (lines 308-315). -/
def registerPreviewPayloadRender (nodeId handleId : String) (renderUrl : String)
    (prev : Reg2 String) : Reg2 String :=
  let nodeRecord := (storeGet prev nodeId).getD []
  match storeGet nodeRecord handleId with
  | some u =>
    if u = renderUrl then prev
    else storeSet prev nodeId (storeSet nodeRecord handleId renderUrl)
  | none => storeSet prev nodeId (storeSet nodeRecord handleId renderUrl)

/-- `Partial<TransformedPayload>`: every field optionally present.  For
fields that are already optional in the artifact, an absent key and a key
explicitly set to `undefined` are identified (both are falsy and both
disappear under `JSON.stringify`). -/
structure PartialPayload where
  generationId : Option Nat := none
  status : Option PStatus := none
  isSynthesizing : Option Bool := none
  isConfirmed : Option Bool := none
  isTransient : Option Bool := none
  generationAllowed : Option Bool := none
  isMandatory : Option Bool := none
  directives : Option (List String) := none
  requiresGeneration : Option Bool := none
  previewUrl : Option String := none
  sourceReference : Option String := none
  targetContainer : Option String := none
  sourceContainer : Option String := none
  metrics : Option GeomMetrics := none
  layers : Option (List TransformedLayer) := none
  isPolished : Option Bool := none
deriving DecidableEq

/-- The JavaScript spread `{ ...currentPayload, ...partialFields }`: a field
present in the partial wins, otherwise the current value is kept. -/
def mergePartial (cur : TransformedPayload) (pf : PartialPayload) :
    TransformedPayload where
  generationId := pf.generationId.or cur.generationId
  status := pf.status.or cur.status
  isSynthesizing := pf.isSynthesizing.or cur.isSynthesizing
  isConfirmed := pf.isConfirmed.or cur.isConfirmed
  isTransient := pf.isTransient.or cur.isTransient
  generationAllowed := pf.generationAllowed.or cur.generationAllowed
  isMandatory := pf.isMandatory.or cur.isMandatory
  directives := pf.directives.or cur.directives
  requiresGeneration := pf.requiresGeneration.or cur.requiresGeneration
  previewUrl := pf.previewUrl.or cur.previewUrl
  sourceReference := pf.sourceReference.or cur.sourceReference
  targetContainer := pf.targetContainer.or cur.targetContainer
  sourceContainer := pf.sourceContainer.or cur.sourceContainer
  metrics := pf.metrics.or cur.metrics
  layers := pf.layers.getD cur.layers
  isPolished := pf.isPolished.or cur.isPolished

/-- The cast `(partial as TransformedPayload)` taken when no current payload
exists: absent optional fields stay absent.  In JavaScript the cast leaves
an absent `layers` key undefined; the one code path that reads the incoming
`layers` field — the reconciler's generation-disallowed branch — would then
throw a TypeError on `undefined.filter`, and `updatePayload` below models
that path as a thrown exception (`none`) instead of using this cast.  On
every remaining path no code reads the field again, and the embedding
represents the absent key by the empty list. -/
def partialAsPayload (pf : PartialPayload) : TransformedPayload where
  generationId := pf.generationId
  status := pf.status
  isSynthesizing := pf.isSynthesizing
  isConfirmed := pf.isConfirmed
  isTransient := pf.isTransient
  generationAllowed := pf.generationAllowed
  isMandatory := pf.isMandatory
  directives := pf.directives
  requiresGeneration := pf.requiresGeneration
  previewUrl := pf.previewUrl
  sourceReference := pf.sourceReference
  targetContainer := pf.targetContainer
  sourceContainer := pf.sourceContainer
  metrics := pf.metrics
  layers := pf.layers.getD []
  isPolished := pf.isPolished

/-- `updatePayload` (lines 352-378): atomic partial update with the silent
no-op guard `!currentPayload && !partial.sourceContainer &&
!partial.previewUrl`.  The result is `none` exactly when the JavaScript
updater throws: with no stored payload and no `layers` key the cast leaves
`layers` undefined, and a partial with `generationAllowed: false` then
sends the reconciler into its generation-disallowed branch — the only
reader of the incoming `layers` field — where `undefined.filter` raises a
TypeError before anything is stored.  With a stored payload the merge
`{...currentPayload, ...partial}` always supplies a real layers array, so
no other input can throw. -/
def updatePayload (nodeId handleId : String) (pf : PartialPayload)
    (prev : Reg2 TransformedPayload) : Option (Reg2 TransformedPayload) :=
  let nodeRecord := (storeGet prev nodeId).getD []
  let currentPayload := storeGet nodeRecord handleId
  if currentPayload.isNone && !jsTruthyStr pf.sourceContainer &&
      !jsTruthyStr pf.previewUrl then some prev
  else
    -- TypeError path: `(partial as TransformedPayload).layers` is undefined
    -- and the generation-disallowed branch will read it
    if currentPayload = none ∧ pf.layers = none ∧
        pf.generationAllowed = some false then none
    else
      let mergedPayload :=
        match currentPayload with
        | some cur => mergePartial cur pf
        | none => partialAsPayload pf
      let reconciledPayload := reconcileTerminalState mergedPayload currentPayload
      match currentPayload with
      | some cur =>
        if cur = reconciledPayload then some prev
        else some (storeSet prev nodeId (storeSet nodeRecord handleId reconciledPayload))
      | none =>
        some (storeSet prev nodeId (storeSet nodeRecord handleId reconciledPayload))

/-- `updatePreview` (lines 406-427): rewrites only `previewUrl` of an
existing payload, no-op when the node or handle is unknown or unchanged. -/
def updatePreview (nodeId handleId : String) (url : String)
    (prev : Reg2 TransformedPayload) : Reg2 TransformedPayload :=
  match storeGet prev nodeId with
  | none => prev
  | some nodeRecord =>
    match storeGet nodeRecord handleId with
    | none => prev
    | some currentPayload =>
      if currentPayload.previewUrl = some url then prev
      else storeSet prev nodeId
        (storeSet nodeRecord handleId { currentPayload with previewUrl := some url })

/-! ## The full store state and the lifecycle controller

External artifact types that the store never inspects (raw PSD binaries,
template metadata, resolved mapping contexts, layout strategies, knowledge
contexts) are embedded as opaque numeric tokens: `unregisterNode` only
removes their keys and a JavaScript object is always truthy. -/

structure ProceduralState where
  psdRegistry : List (String × Nat)
  templateRegistry : List (String × Nat)
  resolvedRegistry : Reg2 Nat
  payloadRegistry : Reg2 TransformedPayload
  reviewerRegistry : Reg2 TransformedPayload
  previewRegistry : Reg2 String
  analysisRegistry : Reg2 Nat
  knowledgeRegistry : List (String × Nat)
  globalVersion : Nat
deriving DecidableEq

/-- The initial store created by `ProceduralStoreProvider` (lines 173-181):
every registry empty, `globalVersion = 0`. -/
def initialState : ProceduralState where
  psdRegistry := []
  templateRegistry := []
  resolvedRegistry := []
  payloadRegistry := []
  reviewerRegistry := []
  previewRegistry := []
  analysisRegistry := []
  knowledgeRegistry := []
  globalVersion := 0

/-- `unregisterNode` (lines 429-455): purges the producer's key from all
eight registries (knowledge and preview short-circuit when the key is
absent, which leaves the registry untouched either way) and always
increments the global version counter. -/
def unregisterNode (nodeId : String) (s : ProceduralState) : ProceduralState where
  psdRegistry := storeErase s.psdRegistry nodeId
  templateRegistry := storeErase s.templateRegistry nodeId
  resolvedRegistry := storeErase s.resolvedRegistry nodeId
  payloadRegistry := storeErase s.payloadRegistry nodeId
  reviewerRegistry := storeErase s.reviewerRegistry nodeId
  analysisRegistry := storeErase s.analysisRegistry nodeId
  knowledgeRegistry :=
    if (storeGet s.knowledgeRegistry nodeId).isNone then s.knowledgeRegistry
    else storeErase s.knowledgeRegistry nodeId
  previewRegistry :=
    if (storeGet s.previewRegistry nodeId).isNone then s.previewRegistry
    else storeErase s.previewRegistry nodeId
  globalVersion := s.globalVersion + 1

/-- `registerPayload` lifted to the full store state. -/
def registerPayloadS (nodeId handleId : String) (payload : TransformedPayload)
    (masterOverride : Option Bool) (s : ProceduralState) : ProceduralState :=
  { s with payloadRegistry :=
      registerPayload nodeId handleId payload masterOverride s.payloadRegistry }

/-- `registerReviewerPayload` lifted to the full store state. -/
def registerReviewerPayloadS (nodeId handleId : String)
    (payload : TransformedPayload) (s : ProceduralState) : ProceduralState :=
  { s with reviewerRegistry :=
      registerReviewerPayload nodeId handleId payload s.reviewerRegistry }

/-- `registerPreviewPayload` lifted to the full store state: one call writes
the preview registry and proxies the payload into the reviewer registry. -/
def registerPreviewPayloadS (nodeId handleId : String)
    (payload : TransformedPayload) (renderUrl : String) (s : ProceduralState) :
    ProceduralState :=
  { s with
    previewRegistry :=
      registerPreviewPayloadRender nodeId handleId renderUrl s.previewRegistry
    reviewerRegistry :=
      registerPreviewPayloadReviewer nodeId handleId payload s.reviewerRegistry }

/-- `updatePayload` lifted to the full store state.  A thrown TypeError
aborts the React state updater before it returns, so the registry keeps its
previous value on the throwing inputs. -/
def updatePayloadS (nodeId handleId : String) (pf : PartialPayload)
    (s : ProceduralState) : ProceduralState :=
  { s with payloadRegistry :=
      Option.getD (updatePayload nodeId handleId pf s.payloadRegistry) s.payloadRegistry }

/-- `updatePreview` lifted to the full store state. -/
def updatePreviewS (nodeId handleId : String) (url : String)
    (s : ProceduralState) : ProceduralState :=
  { s with payloadRegistry :=
      updatePreview nodeId handleId url s.payloadRegistry }

/-- `triggerGlobalRefresh` (lines 457-459). -/
def triggerGlobalRefresh (s : ProceduralState) : ProceduralState :=
  { s with globalVersion := s.globalVersion + 1 }

/-- Store states reachable from the initial store through the modelled write
operations.  The remaining operations of the source (`registerPsd`,
`registerTemplate`, `registerResolved`, `registerAnalysis`,
`registerKnowledge`) never write the payload, reviewer or preview
registries, so they are irrelevant to the invariants proved below. -/
inductive Reachable : ProceduralState → Prop where
  | init : Reachable initialState
  | payload (n h : String) (p : TransformedPayload) (m : Option Bool)
      {s : ProceduralState} :
      Reachable s → Reachable (registerPayloadS n h p m s)
  | reviewer (n h : String) (p : TransformedPayload) {s : ProceduralState} :
      Reachable s → Reachable (registerReviewerPayloadS n h p s)
  | preview (n h : String) (p : TransformedPayload) (u : String)
      {s : ProceduralState} :
      Reachable s → Reachable (registerPreviewPayloadS n h p u s)
  | updatePart (n h : String) (pf : PartialPayload) {s : ProceduralState} :
      Reachable s → Reachable (updatePayloadS n h pf s)
  | updatePrev (n h u : String) {s : ProceduralState} :
      Reachable s → Reachable (updatePreviewS n h u s)
  | unregister (n : String) {s : ProceduralState} :
      Reachable s → Reachable (unregisterNode n s)
  | refresh {s : ProceduralState} :
      Reachable s → Reachable (triggerGlobalRefresh s)

/-! ## Applying reviewer overrides

`applyOverridesToPayload` from `src/components/KnowledgeInspectorNode.tsx`,
lines 398-443: a recursive functional update of the layer tree.  Offsets are
added to the coordinates, `individualScale` multiplies width, height and the
transform scales (`|| 1`, so an absent or zero scale means no scaling),
rotation is additive (`|| 0`), and children are rewritten recursively in
place, so each parent keeps owning exactly its own updated children. -/

structure LayerOverride where
  layerId : String
  xOffset : Rat
  yOffset : Rat
  individualScale : Option Rat
  rotation : Option Rat
  citedRule : String
deriving DecidableEq

mutual

def deepUpdateLayer (overrides : List LayerOverride) :
    TransformedLayer → TransformedLayer
  | .mk i t c tr ch =>
    let newChildren := deepUpdateLayers overrides ch
    match overrides.find? fun o => o.layerId == i with
    | none => .mk i t c tr newChildren
    | some o =>
      -- Apply geometric nudges (Offsets are additive to current state)
      let newX := c.x + o.xOffset
      let newY := c.y + o.yOffset
      -- Scale is multiplicative
      let scaleMult := jsOrOne o.individualScale
      .mk i t
        { c with x := newX, y := newY, w := c.w * scaleMult, h := c.h * scaleMult }
        { tr with
          scaleX := tr.scaleX * scaleMult
          scaleY := tr.scaleY * scaleMult
          offsetX := newX
          offsetY := newY
          rotation := some (jsOrZero tr.rotation + jsOrZero o.rotation) }
        newChildren

def deepUpdateLayers (overrides : List LayerOverride) :
    List TransformedLayer → List TransformedLayer
  | [] => []
  | l :: ls => deepUpdateLayer overrides l :: deepUpdateLayers overrides ls

end

def applyOverridesToPayload (payload : TransformedPayload)
    (overrides : List LayerOverride) : TransformedPayload :=
  { payload with
    layers := deepUpdateLayers overrides payload.layers
    isPolished := some true }

/-! ## Concrete scenario inputs -/

def staleIncomingGateOff : TransformedPayload :=
  { blankPayload with generationAllowed := some false, generationId := some 1 }

def newerCurrentX : TransformedPayload :=
  { blankPayload with generationId := some 2, previewUrl := some "X" }

def staleIncoming : TransformedPayload :=
  { blankPayload with generationId := some 1, status := some PStatus.success }

def newerCurrentK : TransformedPayload :=
  { blankPayload with generationId := some 2, previewUrl := some "K" }

def pixelLayer01 : TransformedLayer :=
  .mk "0.1" .pixel ⟨0, 0, 1, 1⟩ ⟨1, 1, none, 0, 0⟩ []

def swappedGenerativeLayer : TransformedLayer :=
  .mk "0.2" .generative ⟨0, 0, 1, 1⟩ ⟨1, 1, none, 0, 0⟩ []

def syntheticLayer7 : TransformedLayer :=
  .mk "gen-layer-7" .generative ⟨0, 0, 1, 1⟩ ⟨1, 1, none, 0, 0⟩ []

def gateOffIncoming : TransformedPayload :=
  { blankPayload with
    generationAllowed := some false
    layers := [pixelLayer01, swappedGenerativeLayer, syntheticLayer7] }

def idemIncoming : TransformedPayload :=
  { blankPayload with generationId := some 1, status := some PStatus.success }

def idemCurrent : TransformedPayload :=
  { blankPayload with
    generationId := some 2
    generationAllowed := some false
    previewUrl := some "X" }

def layoutIncomingGateOff : TransformedPayload :=
  { blankPayload with generationAllowed := some false }

def generatedCurrent : TransformedPayload :=
  { blankPayload with generationId := some 1, previewUrl := some "X" }

def generatedCurrentP : TransformedPayload :=
  { blankPayload with generationId := some 3, previewUrl := some "P" }

def writeGen1Loading : TransformedPayload :=
  { blankPayload with
    generationId := some 1
    isSynthesizing := some true
    status := some PStatus.loading }

def writeGen1Success : TransformedPayload :=
  { blankPayload with
    generationId := some 1
    isSynthesizing := some false
    status := some PStatus.success
    previewUrl := some "A" }

def writeGen0Late : TransformedPayload :=
  { blankPayload with
    generationId := some 0
    status := some PStatus.success
    previewUrl := some "OLD" }

def demoState : ProceduralState :=
  { initialState with
    psdRegistry := [("a", 1), ("b", 2)]
    payloadRegistry := [("a", [("h", blankPayload)])]
    knowledgeRegistry := [("a", 5)] }

/-- A partial write that crashes the source: it passes the identification
guard via its `previewUrl`, supplies no `layers` key, and carries
`generationAllowed: false`, so on an empty slot the reconciler's
generation-disallowed branch reads the undefined layers field. -/
def crashPartial : PartialPayload :=
  { previewUrl := some "x", generationAllowed := some false }

def nudgeChildLayer : TransformedLayer :=
  .mk "L2" .pixel ⟨1, 2, 3, 4⟩ ⟨1, 1, none, 0, 0⟩ []

def nudgeParentLayer : TransformedLayer :=
  .mk "L1" .pixel ⟨10, 10, 100, 50⟩ ⟨1, 1, none, 0, 0⟩ [nudgeChildLayer]

def nudgeOverride : LayerOverride :=
  ⟨"L1", 5, -5, some (9/10), none, "cited-rule"⟩

def nudgePayload : TransformedPayload :=
  { blankPayload with layers := [nudgeParentLayer] }

/-! ## Toolkit lemmas -/

theorem jsOrStr_absorb (a b : Option String) :
    jsOrStr a (jsOrStr a b) = jsOrStr a b := by
  by_cases h : jsTruthyStr a = true <;> simp [jsOrStr, h]

theorem jsOrStr_right_absorb (a b : Option String) :
    jsOrStr (jsOrStr a b) b = jsOrStr a b := by
  by_cases h : jsTruthyStr a = true
  · simp [jsOrStr, h]
  · by_cases h2 : jsTruthyStr b = true <;> simp [jsOrStr, h, h2]

theorem jsOrNat_absorb (a b : Option Nat) :
    jsOrNat a (jsOrNat a b) = jsOrNat a b := by
  by_cases h : jsTruthyNat a = true <;> simp [jsOrNat, h]

theorem jsOrMetrics_absorb (a b : Option GeomMetrics) :
    jsOrMetrics a (jsOrMetrics a b) = jsOrMetrics a b := by
  by_cases h : jsTruthyMetrics a = true <;> simp [jsOrMetrics, h]

theorem jsOrStr_target_absorb (a b : Option String) :
    jsOrStr a (jsOrStr (jsOrStr a (jsOrStr b (some ""))) (some "")) =
      jsOrStr a (jsOrStr b (some "")) := by
  by_cases h : jsTruthyStr a = true
  · simp [jsOrStr, h]
  · have hA : ∀ y, jsOrStr a y = y := fun y => by rw [jsOrStr, if_neg h]
    rw [hA, hA, jsOrStr_right_absorb]

theorem storeGet_set_self {α : Type} (m : List (String × α)) (k : String) (v : α) :
    storeGet (storeSet m k v) k = some v := by
  induction m with
  | nil => simp [storeSet, storeGet]
  | cons kv rest ih =>
    rcases kv with ⟨k', v'⟩
    by_cases h : k' = k
    · simp [storeSet, storeGet, h]
    · simpa [storeSet, storeGet, h] using ih

theorem storeGet_set_ne {α : Type} (m : List (String × α)) (k k' : String) (v : α)
    (h : k' ≠ k) : storeGet (storeSet m k v) k' = storeGet m k' := by
  induction m with
  | nil => simp [storeSet, storeGet, Ne.symm h]
  | cons kv rest ih =>
    rcases kv with ⟨k0, v0⟩
    by_cases hk : k0 = k
    · subst hk
      simp [storeSet, storeGet, Ne.symm h, h]
    · by_cases hk' : k0 = k'
      · subst hk'
        simp [storeSet, storeGet, hk]
      · simpa [storeSet, storeGet, hk, hk'] using ih

theorem storeGet_erase_self {α : Type} (m : List (String × α)) (k : String) :
    storeGet (storeErase m k) k = none := by
  induction m with
  | nil => rfl
  | cons kv rest ih =>
    rcases kv with ⟨k0, v0⟩
    by_cases h : k0 = k
    · simpa [storeErase, storeGet, h] using ih
    · simpa [storeErase, storeGet, h] using ih

theorem storeGet_erase_ne {α : Type} (m : List (String × α)) (k k' : String)
    (h : k' ≠ k) : storeGet (storeErase m k) k' = storeGet m k' := by
  induction m with
  | nil => rfl
  | cons kv rest ih =>
    rcases kv with ⟨k0, v0⟩
    by_cases hk : k0 = k
    · subst hk
      simpa [storeErase, storeGet, Ne.symm h] using ih
    · by_cases hk' : k0 = k'
      · subst hk'
        simp [storeErase, storeGet, hk]
      · simpa [storeErase, storeGet, hk, hk'] using ih

theorem jsOrStr_none_left (b : Option String) : jsOrStr none b = b := rfl

theorem jsOrNat_none_left (b : Option Nat) : jsOrNat none b = b := rfl

theorem jsOrMetrics_none_left (b : Option GeomMetrics) : jsOrMetrics none b = b := rfl

theorem jsOrStr_target_absorb2 (a : Option String) :
    jsOrStr a (jsOrStr (jsOrStr a (some "")) (some "")) = jsOrStr a (some "") := by
  by_cases h : jsTruthyStr a = true
  · simp [jsOrStr, h]
  · have hA : ∀ y, jsOrStr a y = y := fun y => by rw [jsOrStr, if_neg h]
    rw [hA, hA]
    rfl

theorem jsTruthyNat_none : jsTruthyNat none = false := rfl

theorem jsTruthyStr_none : jsTruthyStr none = false := rfl

theorem jsTruthyMetrics_none : jsTruthyMetrics none = false := rfl

theorem jsTruthyBool_none : jsTruthyBool none = false := rfl

theorem jsOrNat_of_yes (a b : Option Nat) (h : jsTruthyNat a = true) :
    jsOrNat a b = a := by rw [jsOrNat, if_pos h]

theorem jsOrNat_of_not (a b : Option Nat) (h : ¬jsTruthyNat a = true) :
    jsOrNat a b = b := by rw [jsOrNat, if_neg h]

theorem jsqq_refire (ic : Option Bool) (t : Bool) (x : Option Bool) :
    (!t && (jsqq ic (jsqq
        (some (!t && (jsqq ic (jsqq x (some false))).getD false))
        (some false))).getD false) =
    (!t && (jsqq ic (jsqq x (some false))).getD false) := by
  cases ic with
  | some b => simp [jsqq]
  | none => cases t <;> simp [jsqq]

theorem reconcile_refire_fixpoint (p : TransformedPayload)
    (c : Option TransformedPayload) :
    reconcileTerminalState p (some (reconcileTerminalState p c)) =
      reconcileTerminalState p c := by
  by_cases hG : p.generationAllowed = some false
  · simp [reconcileTerminalState, hG]
  by_cases hM : (jsTruthyBool p.isMandatory = true ∨
      "MANDATORY_GEN_FILL" ∈ p.directives.getD []) ∧
      jsTruthyBool p.requiresGeneration = true
  · simp [reconcileTerminalState, hG, hM, jsOrStr_absorb, jsOrNat_absorb]
  rcases c with _ | cur
  · by_cases hI : p.status = some PStatus.idle
    · simp [reconcileTerminalState, hG, hM, hI]
    by_cases hY : jsTruthyBool p.isSynthesizing = true
    · simp [reconcileTerminalState, hG, hM, hI, hY, jsOrStr_absorb,
        jsOrMetrics_absorb, jsOrStr_none_left, jsOrNat_none_left,
        jsOrMetrics_none_left, jsOrStr_target_absorb2]
    · by_cases hg : jsTruthyNat p.generationId = true
      · simp [reconcileTerminalState, hG, hM, hI, hY, hg, jsOrNat_of_yes,
          jsOrStr_absorb, jsqq_refire]
      · simp [reconcileTerminalState, hG, hM, hI, hY, hg, jsOrNat_of_not,
          jsOrStr_absorb, jsqq_refire, jsTruthyNat_none]
  · by_cases hS : (jsTruthyNat cur.generationId = true ∧
        jsTruthyNat p.generationId = true) ∧
        p.generationId.getD 0 < cur.generationId.getD 0
    · have h1 : reconcileTerminalState p (some cur) = cur := by
        simp [reconcileTerminalState, hG, hM, hS]
      rw [h1]
      exact h1
    by_cases hI : p.status = some PStatus.idle
    · simp [reconcileTerminalState, hG, hM, hS, hI]
    by_cases hY : jsTruthyBool p.isSynthesizing = true
    · simp [reconcileTerminalState, hG, hM, hS, hI, hY, jsOrStr_absorb,
        jsOrMetrics_absorb, jsOrStr_target_absorb]
    by_cases hGm : jsTruthyNat p.generationId = false ∧
        jsTruthyNat cur.generationId = true
    · simp [reconcileTerminalState, hG, hM, hS, hI, hY, hGm,
        jsOrStr_right_absorb]
    · by_cases hg : jsTruthyNat p.generationId = true
      · have hS2 : ¬(jsTruthyNat cur.generationId = true ∧
            p.generationId.getD 0 < cur.generationId.getD 0) :=
          fun h => hS ⟨⟨h.1, hg⟩, h.2⟩
        simp [reconcileTerminalState, hG, hM, hS2, hI, hY, hGm, hg, jsOrNat_of_yes,
          jsOrStr_absorb, jsqq_refire]
      · have hg2 : jsTruthyNat p.generationId = false := by
          simpa using hg
        have hGm2 : ¬jsTruthyNat cur.generationId = true :=
          fun hcg => hGm ⟨hg2, hcg⟩
        simp [reconcileTerminalState, hG, hM, hS, hI, hY, hGm2, hg, jsOrNat_of_not,
          jsOrStr_absorb, jsqq_refire, jsTruthyNat_none]

theorem filter_idem {α : Type} (p : α → Bool) (l : List α) :
    (l.filter p).filter p = l.filter p := by
  induction l with
  | nil => rfl
  | cons a t ih => by_cases h : p a <;> simp [h, ih]

theorem jsOrStr_self (a : Option String) : jsOrStr a a = a := by
  by_cases h : jsTruthyStr a = true <;> simp [jsOrStr, h]

theorem jsOrNat_self (a : Option Nat) : jsOrNat a a = a := by
  by_cases h : jsTruthyNat a = true <;> simp [jsOrNat, h]

theorem jsOrMetrics_self (a : Option GeomMetrics) : jsOrMetrics a a = a := by
  by_cases h : jsTruthyMetrics a = true <;> simp [jsOrMetrics, h]

theorem jsOrStr_emptyfix (a : Option String) :
    jsOrStr (jsOrStr a (some "")) (jsOrStr (jsOrStr a (some "")) (some "")) =
      jsOrStr a (some "") := by
  by_cases h : jsTruthyStr a = true
  · simp [jsOrStr, h]
  · have hA : ∀ y, jsOrStr a y = y := fun y => by rw [jsOrStr, if_neg h]
    rw [hA]
    rfl

theorem jsTruthyBool_some (b : Bool) : jsTruthyBool (some b) = b := rfl

theorem jsTruthyNat_some (n : Nat) : jsTruthyNat (some n) = (n != 0) := rfl

theorem bool_and_absorb (a b : Bool) : (a && (a && b)) = (a && b) := by
  cases a <;> simp

/-- C3 (amended): idempotence holds for reconciliation against an empty
slot — for every artifact a, with r = reconcileTerminalState a none,
re-reconciling r against itself gives r back.  (With an arbitrary non-empty
current artifact the property fails, because the stale guard passes the
stored artifact through unnormalised; see the counterexample.) -/
theorem reconcile_no_current_idem (a : TransformedPayload) :
    reconcileTerminalState (reconcileTerminalState a none)
      (some (reconcileTerminalState a none)) = reconcileTerminalState a none := by
  by_cases hG : a.generationAllowed = some false
  · simp [reconcileTerminalState, hG, filter_idem]
  by_cases hM : (jsTruthyBool a.isMandatory = true ∨
      "MANDATORY_GEN_FILL" ∈ a.directives.getD []) ∧
      jsTruthyBool a.requiresGeneration = true
  · simp [reconcileTerminalState, hG, hM, jsOrStr_self, jsOrNat_self]
  by_cases hI : a.status = some PStatus.idle
  · simp [reconcileTerminalState, hG, hM, hI, jsTruthyBool_some, jsTruthyNat_some]
  by_cases hY : jsTruthyBool a.isSynthesizing = true
  · simp [reconcileTerminalState, hG, hM, hI, hY, jsOrStr_self, jsOrNat_self,
      jsOrMetrics_self, jsOrStr_emptyfix, jsOrStr_none_left,
      jsTruthyNat_none, jsTruthyBool_some]
  by_cases hg : jsTruthyNat a.generationId = true
  · simp [reconcileTerminalState, hG, hM, hI, hY, hg, jsOrNat_of_yes,
      jsOrStr_self, jsOrNat_self, jsqq, bool_and_absorb, jsTruthyBool_some]
  · simp [reconcileTerminalState, hG, hM, hI, hY, hg, jsOrNat_of_not,
      jsTruthyNat_none, jsOrStr_self, jsOrNat_self, jsqq, bool_and_absorb,
      jsTruthyBool_some]

theorem registerPayload_second_write_noop (nodeId handleId : String)
    (payload : TransformedPayload) (masterOverride : Option Bool)
    (prev : Reg2 TransformedPayload) :
    registerPayload nodeId handleId payload masterOverride
        (registerPayload nodeId handleId payload masterOverride prev) =
      registerPayload nodeId handleId payload masterOverride prev := by
  unfold registerPayload
  cases hcur : storeGet ((storeGet prev nodeId).getD []) handleId with
  | none =>
    simp only [hcur]
    rw [storeGet_set_self, Option.getD_some, storeGet_set_self]
    simp [reconcile_refire_fixpoint]
  | some cu =>
    simp only [hcur]
    by_cases heq : cu = reconcileTerminalState
        (if masterOverride = some false then
          { payload with generationAllowed := some false } else payload)
        (some cu)
    · simp only [if_pos heq, hcur, if_pos heq]
    · simp only [if_neg heq]
      rw [storeGet_set_self, Option.getD_some, storeGet_set_self]
      simp [reconcile_refire_fixpoint]

theorem reconcile_isPolished (inc : TransformedPayload)
    (cur : Option TransformedPayload) (hinc : inc.isPolished = some true)
    (hcur : ∀ cu, cur = some cu → cu.isPolished = some true) :
    (reconcileTerminalState inc cur).isPolished = some true := by
  rcases cur with _ | cu
  · unfold reconcileTerminalState
    split_ifs <;> simp_all
  · have hcu : cu.isPolished = some true := hcur cu rfl
    unfold reconcileTerminalState
    split_ifs <;> simp_all

theorem registerReviewerPayload_polished (nodeId handleId : String)
    (payload : TransformedPayload) (prev : Reg2 TransformedPayload)
    (ih : ∀ n h q, slotGet prev n h = some q → q.isPolished = some true) :
    ∀ n h q, slotGet (registerReviewerPayload nodeId handleId payload prev) n h =
      some q → q.isPolished = some true := by
  intro n h q hq
  unfold registerReviewerPayload at hq
  have hrec : (reconcileTerminalState { payload with isPolished := some true }
      (storeGet ((storeGet prev nodeId).getD []) handleId)).isPolished = some true := by
    apply reconcile_isPolished
    · rfl
    · intro cu hcu
      exact ih nodeId handleId cu hcu
  cases hcur : storeGet ((storeGet prev nodeId).getD []) handleId with
  | none =>
    simp only [hcur] at hq
    by_cases hn : n = nodeId
    · subst hn
      simp only [slotGet, storeGet_set_self, Option.getD_some] at hq
      by_cases hh : h = handleId
      · subst hh
        rw [storeGet_set_self] at hq
        cases hq
        rw [hcur] at hrec
        exact hrec
      · rw [storeGet_set_ne _ _ _ _ hh] at hq
        exact ih n h q hq
    · simp only [slotGet, storeGet_set_ne _ _ _ _ hn] at hq
      exact ih n h q hq
  | some cu =>
    simp only [hcur] at hq
    by_cases heq : cu = reconcileTerminalState
        { payload with isPolished := some true } (some cu)
    · rw [if_pos heq] at hq
      exact ih n h q hq
    · rw [if_neg heq] at hq
      by_cases hn : n = nodeId
      · subst hn
        simp only [slotGet, storeGet_set_self, Option.getD_some] at hq
        by_cases hh : h = handleId
        · subst hh
          rw [storeGet_set_self] at hq
          cases hq
          rw [hcur] at hrec
          exact hrec
        · rw [storeGet_set_ne _ _ _ _ hh] at hq
          exact ih n h q hq
      · simp only [slotGet, storeGet_set_ne _ _ _ _ hn] at hq
        exact ih n h q hq

/-- The reviewer half of `registerPreviewPayload` is literally the reviewer
write (the render url is never copied into the stored payload). -/
theorem registerPreviewPayloadReviewer_eq :
    @registerPreviewPayloadReviewer = @registerReviewerPayload := rfl

theorem storeErase_polished (k : String) (prev : Reg2 TransformedPayload)
    (ih : ∀ n h q, slotGet prev n h = some q → q.isPolished = some true) :
    ∀ n h q, slotGet (storeErase prev k) n h = some q →
      q.isPolished = some true := by
  intro n h q hq
  by_cases hn : n = k
  · subst hn
    rw [slotGet, storeGet_erase_self] at hq
    simp [storeGet] at hq
  · rw [slotGet, storeGet_erase_ne _ _ _ hn] at hq
    exact ih n h q hq

/-- C9: every artifact stored in the reviewer registry of any reachable
store state carries `isPolished = some true` — both reviewer-path writers
force the flag before reconciliation, and every reconciliation branch
(including the stale guard, which returns the previously stored artifact)
preserves it. -/
theorem reviewerRegistry_polished (s : ProceduralState) (hs : Reachable s)
    (n h : String) (q : TransformedPayload)
    (hq : slotGet s.reviewerRegistry n h = some q) :
    q.isPolished = some true := by
  induction hs generalizing n h q with
  | init => simp [initialState, slotGet, storeGet] at hq
  | payload n' h' p m _ ih =>
    exact ih n h q (by simpa [registerPayloadS] using hq)
  | reviewer n' h' p _ ih =>
    simp only [registerReviewerPayloadS] at hq
    exact registerReviewerPayload_polished n' h' p _ (fun a b c hc => ih a b c hc) n h q hq
  | preview n' h' p u _ ih =>
    simp only [registerPreviewPayloadS, registerPreviewPayloadReviewer_eq] at hq
    exact registerReviewerPayload_polished n' h' p _ (fun a b c hc => ih a b c hc) n h q hq
  | updatePart n' h' pf _ ih =>
    exact ih n h q (by simpa [updatePayloadS] using hq)
  | updatePrev n' h' u _ ih =>
    exact ih n h q (by simpa [updatePreviewS] using hq)
  | unregister n' _ ih =>
    simp only [unregisterNode] at hq
    exact storeErase_polished n' _ (fun a b c hc => ih a b c hc) n h q hq
  | refresh _ ih =>
    exact ih n h q (by simpa [triggerGlobalRefresh] using hq)

/-- C7: `unregisterNode` removes the producer's entries from all eight
registries, leaves every other producer's entries unchanged in each
registry, and increments the global version counter by exactly one — also
when the producer had no entries anywhere. -/
theorem unregisterNode_spec (nodeId : String) (s : ProceduralState) :
    (storeGet (unregisterNode nodeId s).psdRegistry nodeId = none ∧
     storeGet (unregisterNode nodeId s).templateRegistry nodeId = none ∧
     storeGet (unregisterNode nodeId s).resolvedRegistry nodeId = none ∧
     storeGet (unregisterNode nodeId s).payloadRegistry nodeId = none ∧
     storeGet (unregisterNode nodeId s).reviewerRegistry nodeId = none ∧
     storeGet (unregisterNode nodeId s).previewRegistry nodeId = none ∧
     storeGet (unregisterNode nodeId s).analysisRegistry nodeId = none ∧
     storeGet (unregisterNode nodeId s).knowledgeRegistry nodeId = none) ∧
    (∀ k, k ≠ nodeId →
      storeGet (unregisterNode nodeId s).psdRegistry k = storeGet s.psdRegistry k ∧
      storeGet (unregisterNode nodeId s).templateRegistry k = storeGet s.templateRegistry k ∧
      storeGet (unregisterNode nodeId s).resolvedRegistry k = storeGet s.resolvedRegistry k ∧
      storeGet (unregisterNode nodeId s).payloadRegistry k = storeGet s.payloadRegistry k ∧
      storeGet (unregisterNode nodeId s).reviewerRegistry k = storeGet s.reviewerRegistry k ∧
      storeGet (unregisterNode nodeId s).previewRegistry k = storeGet s.previewRegistry k ∧
      storeGet (unregisterNode nodeId s).analysisRegistry k = storeGet s.analysisRegistry k ∧
      storeGet (unregisterNode nodeId s).knowledgeRegistry k = storeGet s.knowledgeRegistry k) ∧
    (unregisterNode nodeId s).globalVersion = s.globalVersion + 1 := by
  refine ⟨⟨?_, ?_, ?_, ?_, ?_, ?_, ?_, ?_⟩, ?_, rfl⟩
  · exact storeGet_erase_self _ _
  · exact storeGet_erase_self _ _
  · exact storeGet_erase_self _ _
  · exact storeGet_erase_self _ _
  · exact storeGet_erase_self _ _
  · simp only [unregisterNode]
    split_ifs with hp
    · simpa using hp
    · exact storeGet_erase_self _ _
  · exact storeGet_erase_self _ _
  · simp only [unregisterNode]
    split_ifs with hp
    · simpa using hp
    · exact storeGet_erase_self _ _
  · intro k hk
    refine ⟨storeGet_erase_ne _ _ _ hk, storeGet_erase_ne _ _ _ hk,
      storeGet_erase_ne _ _ _ hk, storeGet_erase_ne _ _ _ hk,
      storeGet_erase_ne _ _ _ hk, ?_, storeGet_erase_ne _ _ _ hk, ?_⟩
    · simp only [unregisterNode]
      split_ifs with hp
      · rfl
      · exact storeGet_erase_ne _ _ _ hk
    · simp only [unregisterNode]
      split_ifs with hp
      · rfl
      · exact storeGet_erase_ne _ _ _ hk

/-- C8 (amended): `updatePayload` is a silent no-op (registry returned
unchanged, no error) when no payload is stored in the slot and the partial
carries neither a truthy `sourceContainer` nor a truthy `previewUrl`.
Otherwise the partial is merged onto the existing payload and the
reconciled result occupies the slot; when no payload exists the partial is
taken as the full artifact and reconciled-and-stored UNLESS it carries no
`layers` key together with `generationAllowed = false` — on those inputs
the cast leaves `layers` undefined and the reconciler's
generation-disallowed branch throws a TypeError (`none`), storing
nothing. -/
theorem updatePayload_spec (nodeId handleId : String) (pf : PartialPayload)
    (prev : Reg2 TransformedPayload) :
    (slotGet prev nodeId handleId = none →
      jsTruthyStr pf.sourceContainer = false →
      jsTruthyStr pf.previewUrl = false →
      updatePayload nodeId handleId pf prev = some prev) ∧
    (∀ cur, slotGet prev nodeId handleId = some cur →
      ∃ next, updatePayload nodeId handleId pf prev = some next ∧
        slotGet next nodeId handleId =
          some (reconcileTerminalState (mergePartial cur pf) (some cur))) ∧
    (slotGet prev nodeId handleId = none →
      (jsTruthyStr pf.sourceContainer = true ∨ jsTruthyStr pf.previewUrl = true) →
      ¬(pf.layers = none ∧ pf.generationAllowed = some false) →
      ∃ next, updatePayload nodeId handleId pf prev = some next ∧
        slotGet next nodeId handleId =
          some (reconcileTerminalState (partialAsPayload pf) none)) ∧
    (slotGet prev nodeId handleId = none →
      (jsTruthyStr pf.sourceContainer = true ∨ jsTruthyStr pf.previewUrl = true) →
      pf.layers = none → pf.generationAllowed = some false →
      updatePayload nodeId handleId pf prev = none) := by
  refine ⟨?_, ?_, ?_, ?_⟩
  · intro hcur hsc hpu
    rw [slotGet] at hcur
    unfold updatePayload
    simp [hcur, hsc, hpu]
  · intro cur hcur
    rw [slotGet] at hcur
    unfold updatePayload
    simp only [hcur, Option.isNone_some, Bool.false_and]
    rw [if_neg (by simp)]
    rw [if_neg (by simp)]
    by_cases heq : cur = reconcileTerminalState (mergePartial cur pf) (some cur)
    · rw [if_pos heq]
      refine ⟨prev, rfl, ?_⟩
      rw [slotGet]
      exact hcur.trans (congrArg some heq)
    · rw [if_neg heq]
      refine ⟨_, rfl, ?_⟩
      rw [slotGet, storeGet_set_self, Option.getD_some, storeGet_set_self]
  · intro hcur htr hnothrow
    rw [slotGet] at hcur
    unfold updatePayload
    simp only [hcur]
    rw [if_neg (by rcases htr with h | h <;> simp [h])]
    rw [if_neg (by rintro ⟨-, hl, hga⟩; exact hnothrow ⟨hl, hga⟩)]
    refine ⟨_, rfl, ?_⟩
    rw [slotGet, storeGet_set_self, Option.getD_some, storeGet_set_self]
  · intro hcur htr hl hga
    rw [slotGet] at hcur
    unfold updatePayload
    simp only [hcur]
    rw [if_neg (by rcases htr with h | h <;> simp [h])]
    rw [if_pos ⟨trivial, hl, hga⟩]

/-! ## Claim theorems -/

/-- C1 counterexample: the monotonic-generation claim as stated is false,
because the generation-disallowed hard stop (rule 0) preempts the stale
guard: an incoming artifact with `generationAllowed = false` and a smaller
defined `generationId` produces the stripped incoming artifact, not the
stored current one. -/
theorem monotonic_generation_cex :
    reconcileTerminalState staleIncomingGateOff (some newerCurrentX) ≠
      newerCurrentX := by decide

/-- C1 (amended): if the incoming artifact does not trip the
generation-disallowed hard stop, does not trigger mandatory
auto-confirmation, and both artifacts carry defined nonzero (JavaScript
truthy) generation ids with the incoming one strictly smaller, then
reconciliation returns the stored current artifact unchanged. -/
theorem monotonic_generation_guard (inc cur : TransformedPayload)
    (hga : inc.generationAllowed ≠ some false)
    (hforce : ¬((jsTruthyBool inc.isMandatory = true ∨
        "MANDATORY_GEN_FILL" ∈ inc.directives.getD []) ∧
        jsTruthyBool inc.requiresGeneration = true))
    (ig cg : Nat) (hig : inc.generationId = some ig)
    (hcg : cur.generationId = some cg) (hig0 : ig ≠ 0) (hcg0 : cg ≠ 0)
    (hlt : ig < cg) :
    reconcileTerminalState inc (some cur) = cur := by
  simp [reconcileTerminalState, hga, hforce, hig, hcg, jsTruthyNat_some,
    hig0, hcg0, hlt]

/-- Witness for C1 (amended) at a concrete stale write. -/
theorem monotonic_generation_guard_witness :
    reconcileTerminalState staleIncoming (some newerCurrentK) = newerCurrentK :=
  monotonic_generation_guard staleIncoming newerCurrentK (by decide) (by decide)
    1 2 rfl rfl (by decide) (by decide) (by decide)

/-- C2 counterexample: the claim as stated is false — with generation
disallowed the reconciler KEEPS a generative layer whose id lacks the
synthetic prefix (a swapped layer such as "0.2"), so the result does
contain a generative layer whose id lacks the prefix. -/
theorem generation_disallow_purity_cex :
    ¬(∀ l ∈ (reconcileTerminalState gateOffIncoming none).layers,
      ¬(l.type = LayerType.generative ∧
        jsStartsWith l.id "gen-layer-" = false)) := by decide

/-- C2 (amended): for every incoming artifact with
`generationAllowed = some false` and every current artifact, the resulting
layers contain no generative layer whose id bears the synthetic prefix
"gen-layer-" (nor one with an empty id): only purely additive synthetic
layers are stripped, swapped layers survive as placeholders. -/
theorem generation_disallow_purity_amended (inc : TransformedPayload)
    (cur : Option TransformedPayload)
    (hga : inc.generationAllowed = some false) :
    ∀ l ∈ (reconcileTerminalState inc cur).layers,
      l.type = LayerType.generative →
        l.id ≠ "" ∧ jsStartsWith l.id "gen-layer-" = false := by
  intro l hl htype
  simp only [reconcileTerminalState, if_pos hga] at hl
  rw [List.mem_filter] at hl
  rcases hl with ⟨_, hpred⟩
  simp [htype] at hpred
  exact ⟨hpred.1, hpred.2⟩

/-- Witness for C2 (amended): the kept swapped layer of the concrete
scenario satisfies the amended property. -/
theorem generation_disallow_purity_amended_witness :
    swappedGenerativeLayer.id ≠ "" ∧
      jsStartsWith swappedGenerativeLayer.id "gen-layer-" = false :=
  generation_disallow_purity_amended gateOffIncoming none rfl
    swappedGenerativeLayer (by decide) rfl

/-- Spec scenario check: with layers "0.1", "0.2" (generative, swapped) and
"gen-layer-7", disallowing generation keeps "0.1" and "0.2" and drops
"gen-layer-7", as the spec's own scenario and the source intend. -/
theorem generation_disallowed_filter_scenario :
    (reconcileTerminalState gateOffIncoming none).layers =
      [pixelLayer01, swappedGenerativeLayer] := by decide

/-- C3 counterexample: idempotence fails for arbitrary pairs — when the
stale guard fires, the reconciler passes the stored artifact through
unchanged, and re-reconciling that artifact against itself can strip it
(here the stored artifact carries `generationAllowed = some false`). -/
theorem reconcile_idempotence_cex :
    reconcileTerminalState (reconcileTerminalState idemIncoming (some idemCurrent))
        (some (reconcileTerminalState idemIncoming (some idemCurrent))) ≠
      reconcileTerminalState idemIncoming (some idemCurrent) := by decide

/-- C4 counterexample: geometric preservation as stated is false — the
generation-disallowed hard stop clears `previewUrl` even when the incoming
artifact lacks a generation id and the current one has one. -/
theorem geometric_preservation_cex :
    (reconcileTerminalState layoutIncomingGateOff (some generatedCurrent)).previewUrl ≠
      generatedCurrent.previewUrl := by decide

/-- C4 (amended): if the incoming artifact does not trip the
generation-disallowed hard stop, does not trigger mandatory
auto-confirmation, has non-idle status and no generation id, while the
current artifact has a nonzero generation id, then the reconciled artifact
keeps the current preview url. -/
theorem geometric_preservation_guarded (inc cur : TransformedPayload)
    (hga : inc.generationAllowed ≠ some false)
    (hforce : ¬((jsTruthyBool inc.isMandatory = true ∨
        "MANDATORY_GEN_FILL" ∈ inc.directives.getD []) ∧
        jsTruthyBool inc.requiresGeneration = true))
    (hidle : inc.status ≠ some PStatus.idle)
    (hig : inc.generationId = none)
    (cg : Nat) (hcg : cur.generationId = some cg) (hcg0 : cg ≠ 0) :
    (reconcileTerminalState inc (some cur)).previewUrl = cur.previewUrl := by
  by_cases hY : jsTruthyBool inc.isSynthesizing = true
  · simp [reconcileTerminalState, hga, hforce, hidle, hig, hY,
      jsTruthyNat_none, jsTruthyNat_some, hcg, hcg0]
  · simp [reconcileTerminalState, hga, hforce, hidle, hig, hY,
      jsTruthyNat_none, jsTruthyNat_some, hcg, hcg0]

/-- Witness for C4 (amended) at a concrete layout recompute. -/
theorem geometric_preservation_guarded_witness :
    (reconcileTerminalState blankPayload (some generatedCurrentP)).previewUrl =
      generatedCurrentP.previewUrl :=
  geometric_preservation_guarded blankPayload generatedCurrentP (by decide)
    (by decide) (by decide) rfl 3 rfl (by decide)

/-- C5: out-of-order delivery scenario — writing generation 1 (loading),
then generation 1 (success, preview "A"), then the late reordered
generation 0 (preview "OLD") to the same slot leaves the stored artifact
with preview "A" and generation id 1. -/
theorem out_of_order_delivery_scenario :
    (slotGet (registerPayload "producer" "port" writeGen0Late none
        (registerPayload "producer" "port" writeGen1Success none
          (registerPayload "producer" "port" writeGen1Loading none [])))
        "producer" "port").map
      (fun a => (a.previewUrl, a.generationId)) =
      some (some "A", some 1) := by decide

/-- C6: change suppression — reconciling the same incoming artifact against
the output of its own reconciliation is the identity, and therefore a
second identical `registerPayload` write leaves the registry state
unchanged (the deep-equality check suppresses the store). -/
theorem change_suppression_second_write (nodeId handleId : String)
    (p : TransformedPayload) (m : Option Bool)
    (prev : Reg2 TransformedPayload) (c : Option TransformedPayload) :
    reconcileTerminalState p (some (reconcileTerminalState p c)) =
      reconcileTerminalState p c ∧
    registerPayload nodeId handleId p m
        (registerPayload nodeId handleId p m prev) =
      registerPayload nodeId handleId p m prev :=
  ⟨reconcile_refire_fixpoint p c,
    registerPayload_second_write_noop nodeId handleId p m prev⟩

/-- Witness for C7 at a concrete store with entries under two producers. -/
theorem unregisterNode_spec_witness :
    storeGet (unregisterNode "a" demoState).payloadRegistry "a" = none ∧
    storeGet (unregisterNode "a" demoState).psdRegistry "b" =
      storeGet demoState.psdRegistry "b" ∧
    (unregisterNode "a" demoState).globalVersion =
      demoState.globalVersion + 1 :=
  ⟨(unregisterNode_spec "a" demoState).1.2.2.2.1,
    ((unregisterNode_spec "a" demoState).2.1 "b" (by decide)).1,
    (unregisterNode_spec "a" demoState).2.2⟩

/-- C8 counterexample: the original claim asserts that any partial with an
identifying field is accepted as the full artifact and reconciled before
storing; on an empty slot, `crashPartial` instead makes the JavaScript
updater throw a TypeError (`undefined.filter` in the generation-disallowed
branch) — the embedded write returns `none`, so no artifact is stored. -/
theorem updatePayload_store_clause_cex :
    updatePayload "producer" "port" crashPartial [] = none := by decide

/-- Witness for C8 (amended): a partial write with no identifying fields
against an empty registry is a silent no-op. -/
theorem updatePayload_spec_witness :
    updatePayload "producer" "port" {} [] = some [] :=
  (updatePayload_spec "producer" "port" {} []).1 rfl rfl rfl

/-- Witness for C9: the artifact stored by a concrete reviewer write into
the initial store is polished. -/
theorem reviewerRegistry_polished_witness :
    (reconcileTerminalState { blankPayload with isPolished := some true }
        none).isPolished = some true :=
  reviewerRegistry_polished
    (registerReviewerPayloadS "n" "h" blankPayload initialState)
    (Reachable.reviewer "n" "h" blankPayload Reachable.init) "n" "h" _ rfl

/-- C10: applying the override {xOffset 5, yOffset -5, individualScale 0.9}
to a layer at (x 10, y 10, w 100, h 50) yields coordinates
(x 15, y 5, w 90, h 45), scales the transform, and recursively rewrites the
tree while the untouched child stays owned by the same parent. -/
theorem applyOverrides_nudge_scenario :
    (applyOverridesToPayload nudgePayload [nudgeOverride]).layers =
      [TransformedLayer.mk "L1" LayerType.pixel ⟨15, 5, 90, 45⟩
        ⟨9/10, 9/10, some 0, 15, 5⟩ [nudgeChildLayer]] := by
  simp [applyOverridesToPayload, deepUpdateLayers, deepUpdateLayer,
    nudgePayload, nudgeParentLayer, nudgeChildLayer, nudgeOverride,
    blankPayload, jsOrOne, jsOrZero]
  norm_num
